import Mathlib

/-!
Shallow embedding of the azure-video-share-backend HTTP service.

The repository holds three overlapping revisions of one Express server:
`src/server.js` revision 1 (lines 1-210), `src/server.js` revision 2
(lines 211-462) and `src/unnamed/part_000`.  Each handler is embedded
as a pure function from its request data and an explicit state of the
two backing stores (blob object store, Cosmos document store) to an
HTTP status, an optional response body and the next state.  External
nondeterminism (`Date.now()`, `generateId()`, `new Date().toISOString()`,
the container client URL) enters as parameters; where a claim is about
failure handling, the outcome of the relevant SDK call enters as a
`Bool` flag.
-/

/-- A video document as stored in the document store, with exactly the
fields the upload handler builds (server.js lines 156-164). -/
structure Video where
  id : String
  title : String
  description : String
  userId : String
  blobUrl : String
  createdAt : String
  views : Nat
deriving Repr, DecidableEq

/-- A user document of the "users" container (part_000 lines 103-108). -/
structure User where
  id : String
  username : String
  displayName : String
  email : String
deriving Repr, DecidableEq

/-- One object in the object store: name, raw bytes, content type. -/
structure StoredBlob where
  name : String
  bytes : List Nat
  contentType : String
deriving Repr, DecidableEq

/-- The uploaded multipart file as multer presents it (`req.file`). -/
structure UploadFile where
  originalname : String
  buffer : List Nat
  mimetype : String
deriving Repr, DecidableEq

/-- Combined backing state: the blob container existence flag, the
object store contents, and the "videos" and "users" collections. -/
structure Stores where
  containerExists : Bool
  blobs : List StoredBlob
  videos : List Video
  users : List User
deriving Repr, DecidableEq

/-- JS truthiness of an optional string field: absent and empty string
are both falsy. -/
def truthy : Option String → Bool
  | none => false
  | some s => s ≠ ""

/-- JS `a || b` for an optional string `a` and default `b`. -/
def jsOr (o : Option String) (d : String) : String :=
  match o with
  | some s => if s = "" then d else s
  | none => d

/-- The character class of the JS regex `\s` (ASCII range). -/
def isJsWs (c : Char) : Bool :=
  c = ' ' || c = '\t' || c = '\n' || c = '\r' || c = '\x0b' || c = '\x0c'

/-- `replace(/\s+/g, "_")` on a character list: every maximal run of
whitespace becomes a single underscore.  The flag records whether the
previous character was part of a whitespace run. -/
def sanAux : Bool → List Char → List Char
  | _, [] => []
  | prevWs, c :: cs =>
    if isJsWs c then
      if prevWs then sanAux true cs else '_' :: sanAux true cs
    else c :: sanAux false cs

/-- `file.originalname.replace(/\s+/g, "_")` (server.js line 145). -/
def sanitizeWs (s : String) : String := ⟨sanAux false s.data⟩

/-- JS `String.prototype.split` with a single-character separator. -/
def splitChar (c : Char) : List Char → List (List Char)
  | [] => [[]]
  | x :: xs =>
    match splitChar c xs with
    | [] => [[]]
    | y :: ys => if x = c then [] :: y :: ys else (x :: y) :: ys

/-- JS `url.split("/").pop()` (server.js line 188, part_000 line 195). -/
def jsSplitPop (s : String) : String := ⟨(splitChar '/' s.data).getLastD []⟩

/-- `getVideoById` (server.js lines 56-65): scan query
`SELECT * FROM c WHERE c.id = @id`, first match.  The point read
`item(id, id).read()` of the other revisions resolves the same
document, so both reads are embedded as find-by-id. -/
def getVideoById (id : String) (videos : List Video) : Option Video :=
  videos.find? (fun v => decide (v.id = id))

/-- Cosmos `replace`: substitute the document with the matching id. -/
def replaceDocById (v : Video) (videos : List Video) : List Video :=
  videos.map (fun w => if w.id = v.id then v else w)

/-- Cosmos `delete` on the videos collection by document id. -/
def deleteDocById (id : String) (videos : List Video) : List Video :=
  videos.eraseP (fun w => decide (w.id = id))

/-- Blob `deleteIfExists(name)`: remove the named object if present. -/
def deleteBlobByName (name : String) (blobs : List StoredBlob) : List StoredBlob :=
  blobs.filter (fun b => decide (¬ b.name = name))

/-- The SDK call `containerClient.createIfNotExists()`; the environment
flag `ok` injects whether the call succeeds or raises. -/
def createIfNotExists (ok : Bool) (s : Stores) : Except String Stores :=
  if ok then .ok { s with containerExists := true }
  else .error "createIfNotExists failed"

/-- `ensureBlobContainer` of server.js revision 1 (lines 32-34): the
body is a bare `await containerClient.createIfNotExists()` with no
handler, so a failure propagates to the caller. -/
def ensureBlobContainer1 (ok : Bool) (s : Stores) : Except String Stores :=
  createIfNotExists ok s

/-- `ensureBlobContainer` of part_000 (lines 31-38) and server.js
revision 2 (lines 242-249): the call sits in a try/catch that logs the
error, so the function always returns normally. -/
def ensureBlobContainer0 (ok : Bool) (s : Stores) : Except String Stores :=
  match createIfNotExists ok s with
  | .ok s1 => .ok s1
  | .error _ => .ok s

/-- `POST /api/videos` — identical in server.js revision 1
(lines 132-173), revision 2 (lines 354-394) and part_000
(lines 128-166) — on executions in which the backing services succeed.
`now` is `Date.now()`, `newId` the value of `generateId()`, `createdAt`
the ISO rendering of `new Date()`, and `baseUrl` the container client's
URL prefix (the blob URL is `baseUrl ++ "/" ++ blobName`). -/
def uploadVideo (now : Nat) (newId createdAt baseUrl : String)
    (title description userId : Option String) (file : Option UploadFile)
    (s : Stores) : Nat × Option Video × Stores :=
  let s1 := { s with containerExists := true }
  match title, userId, file with
  | some t, some u, some f =>
    if t = "" ∨ u = "" then (400, none, s1)
    else
      let safeName := sanitizeWs f.originalname
      let blobName := Nat.repr now ++ "-" ++ safeName
      let s2 := { s1 with blobs := s1.blobs ++ [(⟨blobName, f.buffer, f.mimetype⟩ : StoredBlob)] }
      let blobUrl := baseUrl ++ "/" ++ blobName
      let nv : Video := ⟨newId, t, jsOr description "", u, blobUrl, createdAt, 0⟩
      let s3 := { s2 with videos := s2.videos ++ [nv] }
      (201, some nv, s3)
  | _, _, _ => (400, none, s1)

/-- Store and response events, used to state ordering properties of a
handler execution. -/
inductive Ev where
  | readDoc : String → Ev
  | replaceDoc : Video → Ev
  | respond : Nat → Ev
deriving Repr, DecidableEq

/-- `GET /api/videos/:id` of server.js revision 1 (lines 86-110):
query-read, increment the view counter, attempt the replace inside its
own try/catch (`replaceOk` injects the outcome; a failure is only
logged), then respond 200 with the incremented document regardless.
The event list records the store operations and the response in
execution order. -/
def getVideo1 (id : String) (replaceOk : Bool) (s : Stores) :
    List Ev × Nat × Option Video × Stores :=
  match getVideoById id s.videos with
  | none => ([.readDoc id, .respond 404], 404, none, s)
  | some v =>
    let v1 := { v with views := v.views + 1 }
    if replaceOk then
      ([.readDoc id, .replaceDoc v1, .respond 200], 200, some v1,
        { s with videos := replaceDocById v1 s.videos })
    else
      ([.readDoc id, .respond 200], 200, some v1, s)

/-- `GET /api/videos/:id` of server.js revision 2 (lines 414-432):
point read, increment, replace with no inner handler — a failing
replace reaches the route's catch, which responds 404. -/
def getVideo2 (id : String) (replaceOk : Bool) (s : Stores) :
    List Ev × Nat × Option Video × Stores :=
  match getVideoById id s.videos with
  | none => ([.readDoc id, .respond 404], 404, none, s)
  | some v =>
    let v1 := { v with views := v.views + 1 }
    if replaceOk then
      ([.readDoc id, .replaceDoc v1, .respond 200], 200, some v1,
        { s with videos := replaceDocById v1 s.videos })
    else
      ([.readDoc id, .respond 404], 404, none, s)

/-- `DELETE /api/videos/:id` of server.js revision 1 (lines 176-205):
when the document exists and has a truthy `blobUrl`, the blob deletion
runs inside its own try/catch (`blobDeleteOk` injects the outcome), so
its failure is logged and the document deletion still runs, followed by
the 200 response. -/
def deleteVideo1 (id : String) (blobDeleteOk : Bool) (s : Stores) : Nat × Stores :=
  match getVideoById id s.videos with
  | none => (404, s)
  | some v =>
    let s1 :=
      if v.blobUrl ≠ "" ∧ blobDeleteOk = true then
        { s with blobs := deleteBlobByName (jsSplitPop v.blobUrl) s.blobs }
      else s
    (200, { s1 with videos := deleteDocById v.id s1.videos })

/-- `DELETE /api/videos/:id` of part_000 (lines 186-206) and server.js
revision 2 (lines 435-457): the blob deletion has no inner handler, so
its failure reaches the route's catch, which responds 500 without ever
deleting the document. -/
def deleteVideoP (id : String) (blobDeleteOk : Bool) (s : Stores) : Nat × Stores :=
  match getVideoById id s.videos with
  | none => (404, s)
  | some v =>
    if blobDeleteOk then
      let s1 := { s with blobs := deleteBlobByName (jsSplitPop v.blobUrl) s.blobs }
      (200, { s1 with videos := deleteDocById id s1.videos })
    else (500, s)

/-- Lexicographic code-point comparison of character lists: the
document store's ordering on the ISO-8601 `createdAt` strings. -/
def lexLe : List Char → List Char → Bool
  | [], _ => true
  | _ :: _, [] => false
  | a :: as, b :: bs => if a = b then lexLe as bs else decide (a.toNat < b.toNat)

/-- String comparison backing `ORDER BY c.createdAt`. -/
def strLe (a b : String) : Bool := lexLe a.data b.data

/-- `GET /api/videos` (server.js lines 74-83 and 340-351, part_000
lines 116-125): `SELECT * FROM c ORDER BY c.createdAt DESC` over the
stored documents. -/
def listVideos (videos : List Video) : List Video :=
  videos.mergeSort (fun a b => strLe b.createdAt a.createdAt)

/-- One entry of the identity endpoint's response array
(`/.auth/me` principal). -/
structure Principal where
  user_id : Option String
  userDetails : String
  email : Option String
deriving Repr, DecidableEq

/-- `getUserById` (part_000 lines 56-68): scan query over "users". -/
def getUserById (id : String) (users : List User) : Option User :=
  users.find? (fun u => decide (u.id = id))

/-- `fetchAuthUser` (part_000 lines 95-113, identical in server.js
revision 2 lines 319-337).  `response` is the parsed identity-endpoint
payload: `none` when it is not an array, otherwise the principal list. -/
def fetchAuthUser (response : Option (List Principal)) (s : Stores) :
    Except String (User × Stores) :=
  match response with
  | none => .error "No user found"
  | some [] => .error "No user found"
  | some (principal :: _) =>
    let userId := jsOr principal.user_id principal.userDetails
    match getUserById userId s.users with
    | some u => .ok (u, s)
    | none =>
      let u : User := ⟨userId, principal.userDetails, principal.userDetails,
        jsOr principal.email ""⟩
      .ok (u, { s with users := s.users ++ [u] })

/-! Helper lemmas. -/

lemma char_eq_of_toNat_eq {a b : Char} (h : a.toNat = b.toNat) : a = b := by
  cases a; cases b
  simp only [Char.toNat] at h
  congr 1
  exact UInt32.toNat.inj h

lemma lexLe_total (a b : List Char) : lexLe a b = true ∨ lexLe b a = true := by
  induction a generalizing b with
  | nil => left; rfl
  | cons x xs ih =>
    cases b with
    | nil => right; rfl
    | cons y ys =>
      by_cases hxy : x = y
      · subst hxy
        rcases ih ys with h | h
        · left; simp [lexLe, h]
        · right; simp [lexLe, h]
      · have hne : x.toNat ≠ y.toNat := fun hn => hxy (char_eq_of_toNat_eq hn)
        have hyx : ¬ y = x := fun he => hxy he.symm
        rcases Nat.lt_or_ge x.toNat y.toNat with h | h
        · left; simp [lexLe, hxy, h]
        · right
          have hlt : y.toNat < x.toNat := lt_of_le_of_ne h (Ne.symm hne)
          simp [lexLe, hyx, hlt]

lemma lexLe_trans (a b c : List Char) (h1 : lexLe a b = true) (h2 : lexLe b c = true) :
    lexLe a c = true := by
  induction a generalizing b c with
  | nil => rfl
  | cons x xs ih =>
    cases b with
    | nil => simp [lexLe] at h1
    | cons y ys =>
      cases c with
      | nil => simp [lexLe] at h2
      | cons z zs =>
        by_cases hxy : x = y
        · subst hxy
          by_cases hxz : x = z
          · subst hxz
            simp only [lexLe, if_pos rfl] at h1 h2 ⊢
            exact ih ys zs h1 h2
          · simp only [lexLe, if_pos rfl] at h1
            simp only [lexLe, if_neg hxz] at h2 ⊢
            exact h2
        · by_cases hyz : y = z
          · subst hyz
            simp only [lexLe, if_neg hxy] at h1 ⊢
            exact h1
          · simp only [lexLe, if_neg hxy] at h1
            simp only [lexLe, if_neg hyz] at h2
            have hlt1 : x.toNat < y.toNat := by simpa using h1
            have hlt2 : y.toNat < z.toNat := by simpa using h2
            have hxz : ¬ x = z := by
              intro he; subst he
              exact absurd (Nat.lt_trans hlt1 hlt2) (lt_irrefl _)
            simp only [lexLe, if_neg hxz]
            simpa using Nat.lt_trans hlt1 hlt2

lemma digitChar_isDigit {m : Nat} (h : m < 10) : (Nat.digitChar m).isDigit = true := by
  interval_cases m <;> decide

lemma toDigitsCore_digits (f : Nat) : ∀ (n : Nat) (ds : List Char),
    (∀ c ∈ ds, c.isDigit = true) →
    ∀ c ∈ Nat.toDigitsCore 10 f n ds, c.isDigit = true := by
  induction f with
  | zero => intro n ds h; simpa [Nat.toDigitsCore] using h
  | succ f ih =>
    intro n ds h
    simp only [Nat.toDigitsCore]
    have hd : ∀ c ∈ Nat.digitChar (n % 10) :: ds, c.isDigit = true := by
      intro c hc
      rcases List.mem_cons.mp hc with rfl | hc
      · exact digitChar_isDigit (Nat.mod_lt _ (by decide))
      · exact h c hc
    split
    · exact hd
    · exact ih (n / 10) _ hd

lemma repr_no_slash (n : Nat) : '/' ∉ (Nat.repr n).data := by
  intro hm
  have hd : ∀ c ∈ Nat.toDigits 10 n, c.isDigit = true :=
    toDigitsCore_digits (n + 1) n [] (by intro c hc; cases hc)
  have hrepr : (Nat.repr n).data = Nat.toDigits 10 n := rfl
  rw [hrepr] at hm
  exact absurd (hd _ hm) (by decide)

lemma splitChar_noSep {c : Char} {l : List Char} (h : c ∉ l) : splitChar c l = [l] := by
  induction l with
  | nil => rfl
  | cons x xs ih =>
    simp only [splitChar]
    rw [ih (fun hm => h (List.mem_cons_of_mem x hm))]
    have hxc : ¬ x = c := fun he => h (he ▸ List.mem_cons_self x xs)
    simp [hxc]

lemma splitChar_append_last {c : Char} {b : List Char} (hb : c ∉ b) (a : List Char) :
    ∃ z zs, splitChar c (a ++ c :: b) = z :: zs ∧ zs ≠ [] ∧
      (z :: zs).getLast? = some b := by
  induction a with
  | nil =>
    refine ⟨[], [b], ?_, by simp, by simp⟩
    simp only [List.nil_append, splitChar]
    rw [splitChar_noSep hb]
    simp
  | cons x xs ih =>
    obtain ⟨z, zs, heq, hne, hlast⟩ := ih
    by_cases hxc : x = c
    · refine ⟨[], z :: zs, ?_, by simp, ?_⟩
      · simp only [List.cons_append, splitChar, List.append_eq]
        rw [heq]
        simp [hxc]
      · rw [List.getLast?_cons_cons]; exact hlast
    · cases zs with
      | nil => exact absurd rfl hne
      | cons w ws =>
        refine ⟨x :: z, w :: ws, ?_, by simp, ?_⟩
        · simp only [List.cons_append, splitChar, List.append_eq]
          rw [heq]
          simp [hxc]
        · rw [List.getLast?_cons_cons] at hlast ⊢
          exact hlast

lemma jsSplitPop_append (base bn : String) (hb : '/' ∉ bn.data) :
    jsSplitPop (base ++ "/" ++ bn) = bn := by
  obtain ⟨z, zs, heq, hne, hlast⟩ := splitChar_append_last hb base.data
  have hdata : (base ++ "/" ++ bn).data = base.data ++ '/' :: bn.data := by
    simp [String.data_append]
  unfold jsSplitPop
  rw [hdata, heq]
  have hlastD : (z :: zs).getLastD [] = bn.data := by
    rw [List.getLastD_eq_getLast?, hlast]; rfl
  rw [hlastD]

lemma blobName_no_slash (now : Nat) (san : String) (hs : '/' ∉ san.data) :
    '/' ∉ (Nat.repr now ++ "-" ++ san).data := by
  intro hm
  rw [String.data_append, String.data_append] at hm
  rcases List.mem_append.mp hm with hm | hm
  · rcases List.mem_append.mp hm with hm | hm
    · exact repr_no_slash now hm
    · simp at hm
  · exact hs hm

/-! Concrete sample data, used by the witness theorems. -/

def stEmpty : Stores := ⟨false, [], [], []⟩

def vidA : Video := ⟨"a", "intro", "", "u1", "http://acct/videos/5-clip.mp4", "2024-01-02", 3⟩

def vidB : Video := ⟨"b", "outro", "", "u1", "http://acct/videos/6-clip2.mp4", "2024-01-03", 0⟩

def stA : Stores := ⟨true, [⟨"5-clip.mp4", [1, 2], "video/mp4"⟩], [vidA], []⟩

def pAlice : Principal := ⟨none, "alice", none⟩

/-- The successful upload path, fully evaluated: shared by the upload
theorems. -/
lemma uploadVideo_success_eq (now : Nat) (newId createdAt baseUrl : String)
    (t : String) (description : Option String) (u : String) (f : UploadFile)
    (s : Stores) (ht : ¬ t = "") (hu : ¬ u = "") :
    uploadVideo now newId createdAt baseUrl (some t) description (some u) (some f) s =
      (201,
        some ⟨newId, t, jsOr description "", u,
          baseUrl ++ "/" ++ (Nat.repr now ++ "-" ++ sanitizeWs f.originalname), createdAt, 0⟩,
        ⟨true,
          s.blobs ++ [⟨Nat.repr now ++ "-" ++ sanitizeWs f.originalname, f.buffer, f.mimetype⟩],
          s.videos ++ [⟨newId, t, jsOr description "", u,
            baseUrl ++ "/" ++ (Nat.repr now ++ "-" ++ sanitizeWs f.originalname), createdAt, 0⟩],
          s.users⟩) := by
  simp [uploadVideo, ht, hu]

/-- C1: an upload request in which any of title, userId or file is
absent is answered 400, and neither a video document nor a stored
object is created (the handlers of all three revisions validate after
`ensureBlobContainer`, which touches only the container flag). -/
theorem upload_missing_field_400 (now : Nat) (newId createdAt baseUrl : String)
    (title description userId : Option String) (file : Option UploadFile) (s : Stores)
    (h : title = none ∨ userId = none ∨ file = none) :
    (uploadVideo now newId createdAt baseUrl title description userId file s).1 = 400 ∧
    (uploadVideo now newId createdAt baseUrl title description userId file s).2.1 = none ∧
    (uploadVideo now newId createdAt baseUrl title description userId file s).2.2.videos = s.videos ∧
    (uploadVideo now newId createdAt baseUrl title description userId file s).2.2.blobs = s.blobs := by
  cases title <;> cases userId <;> cases file <;> simp_all [uploadVideo]

/-- C1 witness: a concrete upload with the title absent. -/
theorem upload_missing_field_400_witness :
    ((none : Option String) = none ∨ (some "u1" : Option String) = none ∨
      (some (⟨"f.mp4", [1], "video/mp4"⟩ : UploadFile) : Option UploadFile) = none) ∧
    ((uploadVideo 5 "id1" "2024-01-01" "http://acct/videos" none (some "d") (some "u1")
        (some ⟨"f.mp4", [1], "video/mp4"⟩) stEmpty).1 = 400 ∧
      (uploadVideo 5 "id1" "2024-01-01" "http://acct/videos" none (some "d") (some "u1")
        (some ⟨"f.mp4", [1], "video/mp4"⟩) stEmpty).2.1 = none ∧
      (uploadVideo 5 "id1" "2024-01-01" "http://acct/videos" none (some "d") (some "u1")
        (some ⟨"f.mp4", [1], "video/mp4"⟩) stEmpty).2.2.videos = stEmpty.videos ∧
      (uploadVideo 5 "id1" "2024-01-01" "http://acct/videos" none (some "d") (some "u1")
        (some ⟨"f.mp4", [1], "video/mp4"⟩) stEmpty).2.2.blobs = stEmpty.blobs) :=
  ⟨Or.inl rfl,
    upload_missing_field_400 5 "id1" "2024-01-01" "http://acct/videos" none (some "d")
      (some "u1") (some ⟨"f.mp4", [1], "video/mp4"⟩) stEmpty (Or.inl rfl)⟩

/-- C2: with title, userId and file present, the upload responds 201
with the created document, which is persisted with view counter 0 and
with the description defaulting to the empty string, and the raw bytes
are stored under the object name `Date.now()`-rendered joined by "-" to
the whitespace-sanitized original filename. -/
theorem upload_success_201 (now : Nat) (newId createdAt baseUrl : String)
    (t : String) (description : Option String) (u : String) (f : UploadFile)
    (s : Stores) (ht : ¬ t = "") (hu : ¬ u = "") :
    ∃ nv : Video,
      uploadVideo now newId createdAt baseUrl (some t) description (some u) (some f) s =
        (201, some nv,
          ⟨true,
            s.blobs ++ [⟨Nat.repr now ++ "-" ++ sanitizeWs f.originalname, f.buffer, f.mimetype⟩],
            s.videos ++ [nv], s.users⟩) ∧
      nv.views = 0 ∧ nv.description = jsOr description "" :=
  ⟨_, uploadVideo_success_eq now newId createdAt baseUrl t description u f s ht hu, rfl, rfl⟩

/-- C2 witness: a concrete successful upload (absent description, a
filename with a space). -/
theorem upload_success_201_witness :
    (¬ ("My Clip" : String) = "") ∧ (¬ ("u1" : String) = "") ∧
    (∃ nv : Video,
      uploadVideo 5 "id1" "2024-01-01" "http://acct/videos" (some "My Clip") none (some "u1")
          (some ⟨"a b.mp4", [1, 2], "video/mp4"⟩) stEmpty =
        (201, some nv,
          ⟨true, [⟨"5-a_b.mp4", [1, 2], "video/mp4"⟩], [nv], []⟩) ∧
      nv.views = 0 ∧ nv.description = jsOr none "") :=
  ⟨by decide, by decide,
    upload_success_201 5 "id1" "2024-01-01" "http://acct/videos" "My Clip" none "u1"
      ⟨"a b.mp4", [1, 2], "video/mp4"⟩ stEmpty (by decide) (by decide)⟩

/-- C3: getVideo (both server.js revisions) responds 404 when no video
with the id exists; when one exists and the write-back succeeds, both
revisions increment the stored view counter by one, write the full
document back, and respond 200 with that document — the event trace
places the replace strictly before the response. -/
theorem getVideo_view_increment (id : String) (s : Stores) :
    (getVideoById id s.videos = none →
      getVideo1 id true s = ([.readDoc id, .respond 404], 404, none, s) ∧
      getVideo2 id true s = ([.readDoc id, .respond 404], 404, none, s)) ∧
    (∀ v : Video, getVideoById id s.videos = some v →
      getVideo1 id true s =
        ([.readDoc id, .replaceDoc { v with views := v.views + 1 }, .respond 200],
          200, some { v with views := v.views + 1 },
          { s with videos := replaceDocById { v with views := v.views + 1 } s.videos }) ∧
      getVideo2 id true s = getVideo1 id true s) := by
  constructor
  · intro h
    constructor <;> simp [getVideo1, getVideo2, h]
  · intro v h
    constructor <;> simp [getVideo1, getVideo2, h]

/-- C3 witness: a store holding one video with 3 views. -/
theorem getVideo_view_increment_witness :
    getVideoById "a" stA.videos = some vidA ∧
    (getVideo1 "a" true stA =
      ([.readDoc "a",
        .replaceDoc ⟨"a", "intro", "", "u1", "http://acct/videos/5-clip.mp4", "2024-01-02", 4⟩,
        .respond 200],
        200, some ⟨"a", "intro", "", "u1", "http://acct/videos/5-clip.mp4", "2024-01-02", 4⟩,
        ⟨true, [⟨"5-clip.mp4", [1, 2], "video/mp4"⟩],
          [⟨"a", "intro", "", "u1", "http://acct/videos/5-clip.mp4", "2024-01-02", 4⟩], []⟩) ∧
      getVideo2 "a" true stA = getVideo1 "a" true stA) :=
  ⟨by decide, (getVideo_view_increment "a" stA).2 vidA (by decide)⟩

/-- C4 counterexample: server.js revision 1's `ensureBlobContainer`
(lines 32-34) has no try/catch, so a failing `createIfNotExists`
propagates to the caller instead of being swallowed. -/
theorem ensureBlobContainer1_raises :
    ensureBlobContainer1 false stEmpty = Except.error "createIfNotExists failed" := rfl

/-- C4 amended: the `ensureBlobContainer` of part_000 and of server.js
revision 2 catches and logs any container-creation failure and returns
normally on every call; revision 1's variant propagates failures. -/
theorem ensureBlobContainer0_never_raises (ok : Bool) (s : Stores) :
    ∃ s1, ensureBlobContainer0 ok s = Except.ok s1 := by
  cases ok
  · exact ⟨s, rfl⟩
  · exact ⟨{ s with containerExists := true }, rfl⟩

/-- C5: deleting an id with no matching video document responds 404 and
leaves the stores untouched, in every revision and whatever the blob
deletion would have done. -/
theorem delete_missing_404 (id : String) (bf : Bool) (s : Stores)
    (h : getVideoById id s.videos = none) :
    deleteVideo1 id bf s = (404, s) ∧ deleteVideoP id bf s = (404, s) := by
  constructor <;> simp [deleteVideo1, deleteVideoP, h]

/-- C5 witness: deleting an absent id from a nonempty store. -/
theorem delete_missing_404_witness :
    getVideoById "zzz" stA.videos = none ∧
    deleteVideo1 "zzz" true stA = (404, stA) ∧ deleteVideoP "zzz" true stA = (404, stA) :=
  ⟨by decide, (delete_missing_404 "zzz" true stA (by decide)).1,
    (delete_missing_404 "zzz" true stA (by decide)).2⟩

/-- C6 counterexample: in part_000 (and server.js revision 2) the blob
deletion is not inside its own try/catch, so on an existing video a
failing object deletion makes the handler respond 500 and the video
document is never deleted — the object-store failure does prevent the
document deletion and the success response. -/
theorem deleteVideoP_blob_failure_fatal :
    deleteVideoP "a" false stA = (500, stA) ∧
    getVideoById "a" (deleteVideoP "a" false stA).2.videos = some vidA := by
  constructor <;> decide

/-- C6 amended: only in server.js revision 1 is the object deletion
best-effort: its failure is caught and logged, and the handler still
deletes the video document and responds 200; in part_000 and revision 2
a failing object deletion aborts the handler with 500 before the
document deletion. -/
theorem deleteVideo1_blob_failure_not_fatal (id : String) (bf : Bool) (s : Stores)
    (v : Video) (h : getVideoById id s.videos = some v) :
    (deleteVideo1 id bf s).1 = 200 ∧
    (deleteVideo1 id bf s).2.videos = deleteDocById v.id s.videos := by
  simp only [deleteVideo1, h]
  split <;> simp

/-- C6 amended witness: revision 1 deleting an existing video while the
blob deletion fails. -/
theorem deleteVideo1_blob_failure_not_fatal_witness :
    getVideoById "a" stA.videos = some vidA ∧
    ((deleteVideo1 "a" false stA).1 = 200 ∧
      (deleteVideo1 "a" false stA).2.videos = deleteDocById "a" stA.videos) :=
  ⟨by decide, deleteVideo1_blob_failure_not_fatal "a" false stA vidA (by decide)⟩

/-- C7: for any stored list of videos — hence for every permutation of
the insertion order — listVideos returns exactly the stored documents,
ordered by `createdAt` descending. -/
theorem listVideos_sorted_desc (l l2 : List Video) (h : l.Perm l2) :
    (listVideos l2).Perm l ∧
    List.Pairwise (fun a b => strLe b.createdAt a.createdAt = true) (listVideos l2) := by
  constructor
  · exact (List.mergeSort_perm l2 _).trans h.symm
  · exact List.sorted_mergeSort
      (fun a b c h1 h2 => lexLe_trans c.createdAt.data b.createdAt.data a.createdAt.data h2 h1)
      (fun a b => by
        rcases lexLe_total b.createdAt.data a.createdAt.data with hh | hh <;>
          simp [strLe, hh])
      l2

/-- C7 witness: two videos inserted in reversed creation order. -/
theorem listVideos_sorted_desc_witness :
    ([vidA, vidB] : List Video).Perm [vidB, vidA] ∧
    ((listVideos [vidB, vidA]).Perm [vidA, vidB] ∧
      List.Pairwise (fun a b => strLe b.createdAt a.createdAt = true)
        (listVideos [vidB, vidA])) :=
  ⟨by decide, listVideos_sorted_desc [vidA, vidB] [vidB, vidA] (by decide)⟩

/-- C8: fetchAuthUser fails when the identity response holds no
principal (not an array, or empty); otherwise it derives the user id
`principal.user_id || principal.userDetails`, returns the stored user
document when one matches, and otherwise creates and returns a user
populated from the principal with the email defaulting to "". -/
theorem fetchAuthUser_spec (p : Principal) (rest : List Principal) (s : Stores) :
    fetchAuthUser none s = Except.error "No user found" ∧
    fetchAuthUser (some []) s = Except.error "No user found" ∧
    (∀ u : User, getUserById (jsOr p.user_id p.userDetails) s.users = some u →
      fetchAuthUser (some (p :: rest)) s = Except.ok (u, s)) ∧
    (getUserById (jsOr p.user_id p.userDetails) s.users = none →
      fetchAuthUser (some (p :: rest)) s =
        Except.ok (⟨jsOr p.user_id p.userDetails, p.userDetails, p.userDetails, jsOr p.email ""⟩,
          { s with users := s.users ++
            [⟨jsOr p.user_id p.userDetails, p.userDetails, p.userDetails, jsOr p.email ""⟩] })) := by
  refine ⟨rfl, rfl, ?_, ?_⟩
  · intro u h; simp [fetchAuthUser, h]
  · intro h; simp [fetchAuthUser, h]

/-- C8 witness: a first-time principal, lazily provisioned. -/
theorem fetchAuthUser_spec_witness :
    getUserById (jsOr pAlice.user_id pAlice.userDetails) stEmpty.users = none ∧
    fetchAuthUser (some [pAlice]) stEmpty =
      Except.ok (⟨"alice", "alice", "alice", ""⟩,
        ⟨false, [], [], [⟨"alice", "alice", "alice", ""⟩]⟩) :=
  ⟨rfl, (fetchAuthUser_spec pAlice [] stEmpty).2.2.2 rfl⟩

/-- C9: when the sanitized original filename contains no slash, the
name the delete handler derives from the stored blobUrl — its last
"/"-separated segment — is exactly the name the upload stored the
object under. -/
theorem upload_delete_blobname_roundtrip (now : Nat) (newId createdAt baseUrl : String)
    (t : String) (description : Option String) (u : String) (f : UploadFile) (s : Stores)
    (ht : ¬ t = "") (hu : ¬ u = "")
    (hs : '/' ∉ (sanitizeWs f.originalname).data) :
    (uploadVideo now newId createdAt baseUrl (some t) description (some u) (some f) s).2.2.blobs =
      s.blobs ++ [⟨Nat.repr now ++ "-" ++ sanitizeWs f.originalname, f.buffer, f.mimetype⟩] ∧
    ∀ nv : Video,
      (uploadVideo now newId createdAt baseUrl (some t) description (some u) (some f) s).2.1 =
        some nv →
      jsSplitPop nv.blobUrl = Nat.repr now ++ "-" ++ sanitizeWs f.originalname := by
  have he := uploadVideo_success_eq now newId createdAt baseUrl t description u f s ht hu
  constructor
  · rw [he]
  · intro nv hnv
    rw [he] at hnv
    have hnv2 : some (⟨newId, t, jsOr description "", u,
        baseUrl ++ "/" ++ (Nat.repr now ++ "-" ++ sanitizeWs f.originalname), createdAt, 0⟩ :
          Video) = some nv := hnv
    obtain rfl := Option.some.inj hnv2
    exact jsSplitPop_append baseUrl _ (blobName_no_slash now _ hs)

/-- C9 witness: the sample upload, with delete deriving "5-a_b.mp4". -/
theorem upload_delete_blobname_roundtrip_witness :
    (¬ ("My Clip" : String) = "") ∧ (¬ ("u1" : String) = "") ∧
    '/' ∉ (sanitizeWs "a b.mp4").data ∧
    ((uploadVideo 5 "id1" "2024-01-01" "http://acct/videos" (some "My Clip") none (some "u1")
        (some ⟨"a b.mp4", [1, 2], "video/mp4"⟩) stEmpty).2.2.blobs =
      stEmpty.blobs ++ [⟨Nat.repr 5 ++ "-" ++ sanitizeWs "a b.mp4", [1, 2], "video/mp4"⟩] ∧
    ∀ nv : Video,
      (uploadVideo 5 "id1" "2024-01-01" "http://acct/videos" (some "My Clip") none (some "u1")
        (some ⟨"a b.mp4", [1, 2], "video/mp4"⟩) stEmpty).2.1 = some nv →
      jsSplitPop nv.blobUrl = Nat.repr 5 ++ "-" ++ sanitizeWs "a b.mp4") :=
  ⟨by decide, by decide, by decide,
    upload_delete_blobname_roundtrip 5 "id1" "2024-01-01" "http://acct/videos" "My Clip" none
      "u1" ⟨"a b.mp4", [1, 2], "video/mp4"⟩ stEmpty (by decide) (by decide) (by decide)⟩

/-- C10: in revision 1 (the revision whose getVideo swallows write-back
failures) a failed view-counter write-back still yields a 200 response
carrying the incremented count, while the store keeps the old document:
the returned views field exceeds the stored one by exactly one. -/
theorem getVideo1_swallowed_writeback (id : String) (s : Stores) (v : Video)
    (h : getVideoById id s.videos = some v) :
    getVideo1 id false s =
      ([.readDoc id, .respond 200], 200, some { v with views := v.views + 1 }, s) ∧
    getVideoById id (getVideo1 id false s).2.2.2.videos = some v := by
  have h1 : getVideo1 id false s =
      ([.readDoc id, .respond 200], 200, some { v with views := v.views + 1 }, s) := by
    simp [getVideo1, h]
  exact ⟨h1, by rw [h1]; exact h⟩

/-- C10 witness: the stored video keeps 3 views while the response
carries 4. -/
theorem getVideo1_swallowed_writeback_witness :
    getVideoById "a" stA.videos = some vidA ∧
    (getVideo1 "a" false stA =
      ([.readDoc "a", .respond 200], 200,
        some ⟨"a", "intro", "", "u1", "http://acct/videos/5-clip.mp4", "2024-01-02", 4⟩, stA) ∧
    getVideoById "a" (getVideo1 "a" false stA).2.2.2.videos = some vidA) :=
  ⟨by decide, getVideo1_swallowed_writeback "a" stA vidA (by decide)⟩
